import Mathlib

/-!
Verification development for the PWMLess Brightness Control overlay
synchronization controller.

The repository contains several revisions of the same Decky plugin:
  * `src/src/index.tsx`       — the current controller (namespace `Index`)
  * `src/unnamed/part_000`    — a throttle-based controller revision (`Part000`)
  * `src/unnamed/part_001`    — an older controller plus the overlay with the
                                 exponent-0.3 smoothing curve (`Part001`)
  * `src/unnamed/part_002`    — two overlay revisions: one with the
                                 exponent-1.5 curve and `getSimpleTemperatureColor`
                                 (`Part002a`), one with the exponent-0.3 curve and
                                 a constant `TEMP_OPACITY` temperature layer
                                 (`Part002b`).

Modelling conventions:
  * JavaScript numbers are modelled as exact rationals (`ℚ`) for the
    state-machine / storage / rate-limiter code, and as real numbers (`ℝ`)
    where `Math.pow` with a fractional exponent appears (smoothing and
    temperature-tint curves); float rounding is not modelled.
  * `localStorage` is a record of `Option ℚ` cells, one per key actually
    used by the code; `getItem(k) ?? d` becomes `Option.getD`.
  * The single-threaded event loop is made explicit: timer scheduling and
    firing, and the throttle gate, are state fields with explicit times.
  * A rejected backend promise is an `Except.error`.
-/

namespace Index

/-- The four localStorage keys used by `src/src/index.tsx`
("pwmlessbrightness", "pwmlessbrightness_lut", "vibrancy_value",
"temperature_value"); a `none` field means the key is absent. -/
structure Storage where
  pwmlessbrightness : Option ℚ
  pwmlessbrightness_lut : Option ℚ
  vibrancy_value : Option ℚ
  temperature_value : Option ℚ
deriving DecidableEq

/-- `getOpacityValue = parseFloat(localStorage.getItem("pwmlessbrightness") ?? "0.5")`. -/
def getOpacityValue (s : Storage) : ℚ := s.pwmlessbrightness.getD (1/2)

/-- `getLutBrightnessValue = parseFloat(localStorage.getItem("pwmlessbrightness_lut") ?? "1.0")`. -/
def getLutBrightnessValue (s : Storage) : ℚ := s.pwmlessbrightness_lut.getD 1

/-- `getLutBrightnessPercent = getLutBrightnessValue() * 100`. -/
def getLutBrightnessPercent (s : Storage) : ℚ := getLutBrightnessValue s * 100

/-- `getPwmBrightnessPercent = 100 - getOpacityValue() * 100`. -/
def getPwmBrightnessPercent (s : Storage) : ℚ := 100 - getOpacityValue s * 100

/-- `getVibrancyValue = parseFloat(localStorage.getItem("vibrancy_value") ?? "0.5")`. -/
def getVibrancyValue (s : Storage) : ℚ := s.vibrancy_value.getD (1/2)

/-- `getTemperatureValue = parseFloat(localStorage.getItem("temperature_value") ?? "9500")`. -/
def getTemperatureValue (s : Storage) : ℚ := s.temperature_value.getD 9500

/-- `applyOverlayOpacity` (index.tsx lines 50–57): the percent the overlay
update callback receives.
`percent = isHDREnabledGlobal ? currentOverlayBrightnessPercent : 100`,
then `percent_compensate = percent - getOpacityValue()`. -/
def applyOverlayOpacity (isHDREnabledGlobal : Bool)
    (currentOverlayBrightnessPercent : ℚ) (s : Storage) : ℚ :=
  (if isHDREnabledGlobal then currentOverlayBrightnessPercent else 100)
    - getOpacityValue s

/-- One iteration of `checkHDR` (index.tsx lines 66–78).  Input: the cached
`isHDREnabledGlobal` flag and the result of awaiting
`callPluginMethod("get_hdr_status")` (`Except.error` = the promise rejected).
Output: `(new cached flag, recomposition triggered?, error logged?)`.
In the catch branch only `console.error` runs: the flag is untouched and
`applyOverlayOpacity` is not called. -/
def checkHDR (isHDREnabledGlobal : Bool) (poll : Except Unit Bool) :
    Bool × Bool × Bool :=
  match poll with
  | Except.error _ => (isHDREnabledGlobal, false, true)
  | Except.ok newHDRStatus =>
      if newHDRStatus ≠ isHDREnabledGlobal then (newHDRStatus, true, false)
      else (isHDREnabledGlobal, false, false)

/-- The module-level mutable state touched by the settings-panel handlers
(index.tsx): the storage plus the two globals and the HDR flag. -/
structure CtrlState where
  storage : Storage
  currentOverlayBrightnessPercent : ℚ
  currentTemperatureGlobal : ℚ
  isHDREnabledGlobal : Bool
deriving DecidableEq

/-- `handleOverlayChange` (index.tsx lines 123–133): unconditionally updates
the global, writes `(100 - value) / 100` to "pwmlessbrightness", and
recomposes iff HDR is enabled.  Returns `(new state, recomposed?)`.
There is no validation branch in the source. -/
def handleOverlayChange (st : CtrlState) (value : ℚ) : CtrlState × Bool :=
  let storage := { st.storage with pwmlessbrightness := some ((100 - value) / 100) }
  let st2 := { st with storage := storage, currentOverlayBrightnessPercent := value }
  (st2, st2.isHDREnabledGlobal)

/-- `handleTemperatureChange` (index.tsx lines 145–156): unconditionally
writes the value to "temperature_value", updates `currentTemperatureGlobal`,
and recomposes iff HDR is enabled.  Returns `(new state, recomposed?)`.
There is no validation branch in the source. -/
def handleTemperatureChange (st : CtrlState) (value : ℚ) : CtrlState × Bool :=
  let storage := { st.storage with temperature_value := some value }
  let st2 := { st with storage := storage, currentTemperatureGlobal := value }
  (st2, st2.isHDREnabledGlobal)

end Index

namespace Part000

/-- `DEFAULT_VALUES` of part_000 (lines 46–51). -/
structure Defaults where
  OVERLAY_OPACITY : ℚ
  LUT_BRIGHTNESS : ℚ
  VIBRANCY : ℚ
  TEMPERATURE : ℚ
deriving DecidableEq

/-- `DEFAULT_VALUES = { OVERLAY_OPACITY: 0.5, LUT_BRIGHTNESS: 1.0,
VIBRANCY: 0.5, TEMPERATURE: 9500 }`. -/
def DEFAULT_VALUES : Defaults :=
  { OVERLAY_OPACITY := 1/2, LUT_BRIGHTNESS := 1, VIBRANCY := 1/2
    TEMPERATURE := 9500 }

/-- `getOverlayOpacity` of part_000: stored value or `DEFAULT_VALUES.OVERLAY_OPACITY`. -/
def getOverlayOpacity (s : Index.Storage) : ℚ :=
  s.pwmlessbrightness.getD DEFAULT_VALUES.OVERLAY_OPACITY

/-- `getLutBrightness` of part_000. -/
def getLutBrightness (s : Index.Storage) : ℚ :=
  s.pwmlessbrightness_lut.getD DEFAULT_VALUES.LUT_BRIGHTNESS

/-- `getTemperature` of part_000: stored value or `DEFAULT_VALUES.TEMPERATURE`. -/
def getTemperature (s : Index.Storage) : ℚ :=
  s.temperature_value.getD DEFAULT_VALUES.TEMPERATURE

/-- `applyOverlaySettings` (part_000 lines 159–170): the percent the overlay
update callback receives.
`targetPercent = isHDRActive ? globalOverlayBrightnessPercent : 100`,
then `compensatedPercent = targetPercent - getOverlayOpacity()`. -/
def applyOverlaySettings (isHDRActive : Bool)
    (globalOverlayBrightnessPercent : ℚ) (s : Index.Storage) : ℚ :=
  (if isHDRActive then globalOverlayBrightnessPercent else 100)
    - getOverlayOpacity s

/-- One iteration of `checkHDRStatus` (part_000 lines 194–215), shaped like
`Index.checkHDR`: on a rejected poll only `console.error` runs, the cached
`isHDRActive` flag is retained and `applyOverlaySettings` is not called. -/
def checkHDRStatus (isHDRActive : Bool) (poll : Except Unit Bool) :
    Bool × Bool × Bool :=
  match poll with
  | Except.error _ => (isHDRActive, false, true)
  | Except.ok newHDRStatus =>
      if newHDRStatus ≠ isHDRActive then (newHDRStatus, true, false)
      else (isHDRActive, false, false)

end Part000

namespace Index

/-- Event-loop state of one debounced backend channel of index.tsx
(`lutUpdateTimeout` / `vibrancyUpdateTimeout` / `temperatureUpdateTimeout`).
`now` is the current event-loop time, `timers` the scheduled `setTimeout`
callbacks `(handle, deadline, payload)`, `handle` the channel's stored
timeout handle, `stored` the channel's localStorage cell, and `sent` the
payloads of the backend calls made so far. -/
structure DebChannel where
  now : ℚ
  nextId : ℕ
  timers : List (ℕ × ℚ × ℚ)
  handle : Option ℕ
  stored : Option ℚ
  sent : List ℚ
deriving DecidableEq

/-- `clearTimeout(h)`: removes the timer with handle `h` (a no-op when that
timer already fired or never existed). -/
def clearTimeout (timers : List (ℕ × ℚ × ℚ)) (h : ℕ) : List (ℕ × ℚ × ℚ) :=
  timers.filter (fun e => e.1 ≠ h)

/-- The event loop advancing to time `t`: every timer whose deadline has
passed fires (its payload is pushed to the backend), the rest stay pending. -/
def advanceTo (s : DebChannel) (t : ℚ) : DebChannel :=
  { s with
    now := t
    timers := s.timers.filter (fun e => decide (t < e.2.1))
    sent := s.sent ++ (s.timers.filter (fun e => decide (e.2.1 ≤ t))).map
      (fun e => e.2.2) }

/-- The shared body of the three debounced setters of index.tsx
(lines 228–244, 246–258, 260–278), run at event-loop time `t`:
synchronous `localStorage.setItem(payload)`, then
`if (timeout) clearTimeout(timeout); timeout = setTimeout(push, 300)`.
The scheduled push carries the payload captured by the closure. -/
def debounceSet (payload t : ℚ) (s : DebChannel) : DebChannel :=
  let timers :=
    match s.handle with
    | some h => clearTimeout s.timers h
    | none => s.timers
  { s with
    stored := some payload
    timers := timers ++ [(s.nextId, t + 300, payload)]
    handle := some s.nextId
    nextId := s.nextId + 1 }

/-- `updateLutBrightness` (index.tsx lines 228–244) on its channel state:
`brightness = percent / 100` is stored and is the brightness payload of the
scheduled `set_brightness_and_temperature` push.  (The push also re-reads
`getTemperatureValue()` at fire time; that read does not affect this
channel's state.) -/
def updateLutBrightness (percent t : ℚ) (s : DebChannel) : DebChannel :=
  debounceSet (percent / 100) t s

/-- `updateTemperature` (index.tsx lines 260–278) on its channel state: the
value is stored and is the temperature payload of the scheduled push.
(The assignment to `currentTemperatureGlobal` is outside the channel.) -/
def updateTemperature (value t : ℚ) (s : DebChannel) : DebChannel :=
  debounceSet value t s

/-- Run a time-stamped list of debounced setter calls `(t, payload)`: the
event loop first advances to `t` (firing any due timer), then the setter
body runs. -/
def runDeb (s : DebChannel) : List (ℚ × ℚ) → DebChannel
  | [] => s
  | (t, payload) :: rest => runDeb (debounceSet payload t (advanceTo s t)) rest

/-- The idle channel at plugin start: no timer, no stored value, nothing sent. -/
def initSt : DebChannel := ⟨0, 0, [], none, none, []⟩

/-- Call times strictly increase and consecutive calls are less than the
300 ms debounce delay apart. -/
def gapOk : List (ℚ × ℚ) → Bool
  | (t1, _) :: (t2, p2) :: rest =>
      decide (t1 < t2) && decide (t2 < t1 + 300) && gapOk ((t2, p2) :: rest)
  | _ => true

/-- Last element of a call list, with a default for the empty list. -/
def lastD (d : ℚ × ℚ) : List (ℚ × ℚ) → ℚ × ℚ
  | [] => d
  | x :: xs => lastD x xs

end Index

namespace Part000

/-- State of one throttled backend channel of part_000 (`canUpdateVibrancy`
and friends), with the gate made time-explicit: the boolean
`canUpdateVibrancy` is true at time `t` iff `reopenAt ≤ t`, because the
`finally` block re-opens the gate `THROTTLE_MS = 100` after the awaited
backend call completes.  `sentAt` records `(time, value)` of every backend
call made. -/
structure ThrottleChannel where
  reopenAt : ℚ
  stored : Option ℚ
  sentAt : List (ℚ × ℚ)
deriving DecidableEq

/-- `updateVibrancy` (part_000 lines 474–489) called at time `t`, where the
awaited `set_vibrancy` backend call takes `dur ≥ 0` ms:
`localStorage.setItem` runs first and unconditionally; then
`if (!canUpdateVibrancy) return;` drops the call when the gate is closed;
otherwise the backend call is made now and the gate reopens at
`t + dur + 100`. -/
def updateVibrancy (value t dur : ℚ) (s : ThrottleChannel) : ThrottleChannel :=
  let s1 := { s with stored := some value }
  if s1.reopenAt ≤ t then
    { s1 with sentAt := s1.sentAt ++ [(t, value)], reopenAt := t + dur + 100 }
  else s1

/-- Run a list of throttled `updateVibrancy` calls `(t, value, dur)`. -/
def runVib (s : ThrottleChannel) : List (ℚ × ℚ × ℚ) → ThrottleChannel
  | [] => s
  | (t, v, d) :: rest => runVib (updateVibrancy v t d s) rest

/-- State of the throttled LUT channel of part_000; `sentAt` records
`(time, brightness, temperature_kelvin)` of every
`set_brightness_and_temperature` call. -/
structure LutChannel where
  reopenAt : ℚ
  stored : Option ℚ
  sentAt : List (ℚ × ℚ × ℚ)
deriving DecidableEq

/-- `updateLutBrightness` (part_000 lines 447–466) called at time `t`:
`brightness = percent / 100` is stored unconditionally; when the gate is
open the backend call is made with that brightness and the current
`getTemperature()` read (passed here as `temperature`), and the gate
reopens at `t + dur + 100`; when closed the call is dropped. -/
def updateLutBrightness (percent temperature t dur : ℚ) (s : LutChannel) :
    LutChannel :=
  let brightness := percent / 100
  let s1 := { s with stored := some brightness }
  if s1.reopenAt ≤ t then
    { s1 with sentAt := s1.sentAt ++ [(t, brightness, temperature)]
              reopenAt := t + dur + 100 }
  else s1

end Part000

/-- Consecutive elements at least 100 apart and the last element at least
100 below the bound `r` (the channel's reopen time). -/
def chainGapTo (r : ℚ) : List ℚ → Prop
  | [] => True
  | a :: l =>
      (match l with
       | [] => a + 100 ≤ r
       | b :: _ => a + 100 ≤ b) ∧ chainGapTo r l

/-- Last element of a rational list with default. -/
def lastQ (d : ℚ) : List ℚ → ℚ
  | [] => d
  | x :: xs => lastQ x xs

namespace Part001

/-- `getSmoothOpacity` (part_001 lines 253–259): perceptual smoothing curve
with exponent 0.3.  JS numbers modelled as reals. -/
noncomputable def getSmoothOpacity (percent : ℝ) : ℝ :=
  if 100 ≤ percent then 0
  else if percent ≤ 0 then 0.997
  else ((100 - percent) / 100) ^ (0.3 : ℝ)

end Part001

namespace Part002a

/-- `getSmoothOpacity` of the first overlay revision in part_002
(lines 57–62): smoothing curve with exponent 1.5. -/
noncomputable def getSmoothOpacity (percent : ℝ) : ℝ :=
  if 100 ≤ percent then 0
  else if percent ≤ 0 then 0.997
  else ((100 - percent) / 100) ^ (1.5 : ℝ)

/-- `NEUTRAL_TEMP = 6500`. -/
noncomputable def NEUTRAL_TEMP : ℝ := 6500

/-- `BASE_TEMP_OPACITY = 0.001`. -/
noncomputable def BASE_TEMP_OPACITY : ℝ := 0.001

/-- `MAX_TEMP_OPACITY = 0.215`. -/
noncomputable def MAX_TEMP_OPACITY : ℝ := 0.215

/-- `WARM_INTENSITY_CURVE = 0.3`. -/
noncomputable def WARM_INTENSITY_CURVE : ℝ := 0.3

/-- `COOL_INTENSITY_CURVE = 0.3`. -/
noncomputable def COOL_INTENSITY_CURVE : ℝ := 0.3

/-- JavaScript `Math.round`: round half toward positive infinity. -/
noncomputable def jsRound (x : ℝ) : ℤ := ⌊x + 1/2⌋

/-- `getSimpleTemperatureColor` (part_002 lines 72–117): the temperature
tint `(rgb, opacity)` of the first part_002 overlay revision. -/
noncomputable def getSimpleTemperatureColor (kelvin brightnessPercent : ℝ) :
    (ℤ × ℤ × ℤ) × ℝ :=
  if kelvin = NEUTRAL_TEMP then ((0, 0, 0), 0)
  else
    let diff := kelvin - NEUTRAL_TEMP
    let maxDiff : ℝ := 4000
    let normalizedDiff := min 1 (|diff| / maxDiff)
    if kelvin < NEUTRAL_TEMP then
      let intensity := normalizedDiff ^ WARM_INTENSITY_CURVE
      let baseOpacity :=
        BASE_TEMP_OPACITY + (MAX_TEMP_OPACITY - BASE_TEMP_OPACITY) * intensity
      let brightnessMultiplier := brightnessPercent / 100
      let opacity := baseOpacity * brightnessMultiplier * intensity
      ((jsRound (255 * intensity), jsRound (175 * intensity), 0), opacity)
    else
      let intensity := normalizedDiff ^ COOL_INTENSITY_CURVE
      let baseOpacity :=
        BASE_TEMP_OPACITY + (MAX_TEMP_OPACITY - BASE_TEMP_OPACITY) * intensity
      let brightnessMultiplier := brightnessPercent / 100
      let opacity := baseOpacity * brightnessMultiplier
      ((0, jsRound (50 * intensity), jsRound (255 * intensity)), opacity)

end Part002a

namespace Part002b

/-- `getSmoothOpacity` of the second overlay revision in part_002
(lines 256–261): smoothing curve with exponent 0.3. -/
noncomputable def getSmoothOpacity (percent : ℝ) : ℝ :=
  if 100 ≤ percent then 0
  else if percent ≤ 0 then 0.997
  else ((100 - percent) / 100) ^ (0.3 : ℝ)

/-- `TEMP_OPACITY = 0.20`, the constant alpha of the temperature layer of
the second part_002 overlay revision. -/
noncomputable def TEMP_OPACITY : ℝ := 0.20

/-- The alpha channel of the temperature layer background
`rgba(r, g, b, TEMP_OPACITY)` (part_002 lines 297–327 and 361): the same
constant `TEMP_OPACITY` for every temperature, including 6500 K.  (The rgb
part comes from `kelvinToRGB`, which never affects the alpha.) -/
noncomputable def temperatureLayerAlpha (_kelvin : ℝ) : ℝ := TEMP_OPACITY

end Part002b

/-- Reachable contents of the "temperature_value" localStorage cell when the
key is only ever written through the temperature slider of the panel
(`min 3500, max 9000, step 100` in both index.tsx and part_000): initially
absent, and each write stores a slider value. -/
inductive TempReach : Option ℚ → Prop
  | init : TempReach none
  | set (s : Option ℚ) (k : ℚ) (hk : 3500 ≤ k ∧ k ≤ 9000) :
      TempReach s → TempReach (some k)

/-- The overlay opacity actually rendered under HDR-inactive: the percent
emitted by `Index.applyOverlayOpacity` with `isHDREnabledGlobal = false`,
fed to the part_001 smoothing curve. -/
noncomputable def composedInactiveOpacity (cur : ℚ) (s : Index.Storage) : ℝ :=
  Part001.getSmoothOpacity ((Index.applyOverlayOpacity false cur s : ℚ) : ℝ)

/-! ## Helper lemmas -/

/-- Raising `t ^ 0.3` to the 10th power gives `t ^ 3`: comparisons with the
exponent-0.3 curve reduce to rational arithmetic. -/
theorem rpow_three_tenths_pow_ten {t : ℝ} (ht : 0 ≤ t) :
    (t ^ (0.3 : ℝ)) ^ (10 : ℕ) = t ^ (3 : ℕ) := by
  have h1 : (t ^ (0.3 : ℝ)) ^ (10 : ℕ) = (t ^ (0.3 : ℝ)) ^ ((10 : ℕ) : ℝ) :=
    (Real.rpow_natCast _ 10).symm
  have h2 : (t ^ (0.3 : ℝ)) ^ ((10 : ℕ) : ℝ) = t ^ ((0.3 : ℝ) * 10) :=
    (Real.rpow_mul ht _ _).symm
  have h3 : (0.3 : ℝ) * 10 = ((3 : ℕ) : ℝ) := by norm_num
  rw [h1, h2, h3, Real.rpow_natCast]

/-- Raising `t ^ 1.5` to the square gives `t ^ 3`. -/
theorem rpow_three_halves_pow_two {t : ℝ} (ht : 0 ≤ t) :
    (t ^ (1.5 : ℝ)) ^ (2 : ℕ) = t ^ (3 : ℕ) := by
  have h1 : (t ^ (1.5 : ℝ)) ^ (2 : ℕ) = (t ^ (1.5 : ℝ)) ^ ((2 : ℕ) : ℝ) :=
    (Real.rpow_natCast _ 2).symm
  have h2 : (t ^ (1.5 : ℝ)) ^ ((2 : ℕ) : ℝ) = t ^ ((1.5 : ℝ) * 2) :=
    (Real.rpow_mul ht _ _).symm
  have h3 : (1.5 : ℝ) * 2 = ((3 : ℕ) : ℝ) := by norm_num
  rw [h1, h2, h3, Real.rpow_natCast]

/-! ## Claim C9 -/

/-- Claim C9: a failed HDR status poll (`Except.error`) retains the cached
HdrState unchanged, triggers no recomposition, and logs the error — in both
the index.tsx and the part_000 controller revisions. -/
theorem c9_poll_failure_retains_state (prev : Bool) :
    Index.checkHDR prev (Except.error ()) = (prev, false, true) ∧
    Part000.checkHDRStatus prev (Except.error ()) = (prev, false, true) :=
  ⟨rfl, rfl⟩

/-! ## Claim C3 -/

/-- Claim C3: each backend-update setter writes its localStorage cell
unconditionally, in every channel state — independent of whether the
backend push is scheduled (debounce variants) or the throttle gate is
closed and the push dropped (part_000 variants), and before any push can
fail. -/
theorem c3_storage_write_unconditional :
    (∀ (percent t : ℚ) (s : Index.DebChannel),
        (Index.updateLutBrightness percent t s).stored = some (percent / 100)) ∧
    (∀ (value t : ℚ) (s : Index.DebChannel),
        (Index.updateTemperature value t s).stored = some value) ∧
    (∀ (value t dur : ℚ) (s : Part000.ThrottleChannel),
        (Part000.updateVibrancy value t dur s).stored = some value) ∧
    (∀ (percent temperature t dur : ℚ) (s : Part000.LutChannel),
        (Part000.updateLutBrightness percent temperature t dur s).stored
          = some (percent / 100)) := by
  refine ⟨fun _ _ _ => rfl, fun _ _ _ => rfl, ?_, ?_⟩
  · intro v t d s
    rw [Part000.updateVibrancy]
    split <;> rfl
  · intro p temp t d s
    rw [Part000.updateLutBrightness]
    split <;> rfl

/-! ## Claim C6 -/

/-- Claim C6 counterexample: `handleTemperatureChange` accepts the
out-of-range value 10000 K (slider range is 3500..9000): far from rejecting
and leaving state untouched, it mutates the state and persists the value. -/
theorem c6_counterexample :
    ¬ ((10000 : ℚ) ≤ 9000) ∧
    (Index.handleTemperatureChange ⟨⟨none, none, none, none⟩, 50, 9500, false⟩
        10000).1 ≠ ⟨⟨none, none, none, none⟩, 50, 9500, false⟩ ∧
    (Index.handleTemperatureChange ⟨⟨none, none, none, none⟩, 50, 9500, false⟩
        10000).1.storage.temperature_value = some 10000 := by
  refine ⟨by norm_num, ?_, rfl⟩
  decide

/-- Claim C6 (amended): the setters perform no range validation at all: for
every input value, in range or not, `handleTemperatureChange` persists the
value and updates the global, `handleOverlayChange` persists the inverted
percent and updates the global, and both recompose exactly when HDR is
active; no error is ever signalled.  Range restriction exists only in the
slider UI configuration. -/
theorem c6_no_validation (st : Index.CtrlState) (value : ℚ) :
    (Index.handleTemperatureChange st value).1.storage.temperature_value
      = some value ∧
    (Index.handleTemperatureChange st value).1.currentTemperatureGlobal = value ∧
    (Index.handleTemperatureChange st value).2 = st.isHDREnabledGlobal ∧
    (Index.handleOverlayChange st value).1.storage.pwmlessbrightness
      = some ((100 - value) / 100) ∧
    (Index.handleOverlayChange st value).1.currentOverlayBrightnessPercent
      = value ∧
    (Index.handleOverlayChange st value).2 = st.isHDREnabledGlobal :=
  ⟨rfl, rfl, rfl, rfl, rfl, rfl⟩

/-! ## Claim C7 -/

/-- Claim C7 counterexample: in the initial state with nothing persisted the
documented default temperature is 9500 K in both revisions, which is outside
the 3500..9000 range the claim asserts. -/
theorem c7_counterexample :
    Index.getTemperatureValue ⟨none, none, none, none⟩ = 9500 ∧
    Part000.DEFAULT_VALUES.TEMPERATURE = 9500 ∧
    ¬ ((9500 : ℚ) ≤ 9000) :=
  ⟨rfl, rfl, by norm_num⟩

/-- Claim C7 (amended): when the "temperature_value" cell is only ever
written through the panel slider (3500..9000), every reachable state has
its temperature parameter either equal to the out-of-range default 9500
(nothing persisted yet) or within 3500..9000. -/
theorem c7_amended (s : Option ℚ) (h : TempReach s) (st : Index.Storage)
    (hs : st.temperature_value = s) :
    Index.getTemperatureValue st = 9500 ∨
    (3500 ≤ Index.getTemperatureValue st ∧
      Index.getTemperatureValue st ≤ 9000) := by
  cases h with
  | init =>
      left
      rw [Index.getTemperatureValue, hs]
      rfl
  | set s k hk _ =>
      right
      rw [Index.getTemperatureValue, hs]
      exact hk

/-- Witness for `c7_amended` at a concrete reachable state. -/
theorem c7_amended_witness :
    Index.getTemperatureValue ⟨none, none, none, some 6500⟩ = 9500 ∨
    (3500 ≤ Index.getTemperatureValue ⟨none, none, none, some 6500⟩ ∧
      Index.getTemperatureValue ⟨none, none, none, some 6500⟩ ≤ 9000) :=
  c7_amended (some 6500)
    (TempReach.set none 6500 (by norm_num) TempReach.init)
    ⟨none, none, none, some 6500⟩ rfl

/-! ## Claim C8 -/

/-- Claim C8 counterexample: the second part_002 overlay revision renders a
temperature layer whose alpha is the constant `TEMP_OPACITY = 0.20` at
every temperature — at the neutral 6500 K its tint opacity is 0.20, not 0. -/
theorem c8_counterexample :
    Part002b.temperatureLayerAlpha 6500 = 0.20 ∧ (0.20 : ℝ) ≠ 0 :=
  ⟨rfl, by norm_num⟩

/-- Claim C8 (amended): in the `getSimpleTemperatureColor` compositor
variant the tint opacity at exactly the neutral temperature 6500 K is zero
for every brightness percent; the other temperature-layer variant instead
applies the constant alpha 0.20 regardless of temperature. -/
theorem c8_neutral_tint :
    (∀ brightnessPercent : ℝ,
      (Part002a.getSimpleTemperatureColor 6500 brightnessPercent).2 = 0) ∧
    (∀ kelvin : ℝ, Part002b.temperatureLayerAlpha kelvin = 0.20) := by
  constructor
  · intro b
    rw [Part002a.getSimpleTemperatureColor, Part002a.NEUTRAL_TEMP]
    norm_num
  · intro k
    rfl

/-! ## Claim C1 -/

/-- Claim C1: evaluation of the code at the failing input.  With HDR
inactive and the persisted overlay opacity at its default 0.5 (that is,
`overlayBrightnessPercent = 50`), `applyOverlayOpacity` emits the
compensated percent `100 - 0.5 = 99.5`, and the smoothing curve turns that
into an overlay opacity strictly greater than 0.2 — a clearly visible
dimming, not full transparency.  With persisted opacity 0 the emitted
percent is 100 and the composed opacity is 0, so the HDR-inactive opacity
also depends on the persisted brightness. -/
theorem c1_code_evaluation :
    Index.applyOverlayOpacity false 50 ⟨some (1/2), none, none, none⟩
      = 199 / 2 ∧
    (1 / 5 : ℝ) < composedInactiveOpacity 50 ⟨some (1/2), none, none, none⟩ ∧
    composedInactiveOpacity 100 ⟨some 0, none, none, none⟩ = 0 := by
  have e1 : Index.applyOverlayOpacity false 50 ⟨some (1/2), none, none, none⟩
      = 199 / 2 := by
    norm_num [Index.applyOverlayOpacity, Index.getOpacityValue]
  refine ⟨e1, ?_, ?_⟩
  · have h1 : composedInactiveOpacity 50 ⟨some (1/2), none, none, none⟩
        = ((1 : ℝ) / 200) ^ (0.3 : ℝ) := by
      rw [composedInactiveOpacity, e1, Part001.getSmoothOpacity]
      norm_num
    rw [h1]
    have h10 : ((1 : ℝ) / 5) ^ (10 : ℕ)
        < (((1 : ℝ) / 200) ^ (0.3 : ℝ)) ^ (10 : ℕ) := by
      rw [rpow_three_tenths_pow_ten (by norm_num)]
      norm_num
    exact lt_of_pow_lt_pow_left₀ 10 (Real.rpow_nonneg (by norm_num) _) h10
  · have e2 : Index.applyOverlayOpacity false 100 ⟨some 0, none, none, none⟩
        = 100 := by
      norm_num [Index.applyOverlayOpacity, Index.getOpacityValue]
    rw [composedInactiveOpacity, e2, Part001.getSmoothOpacity]
    norm_num

/-! ## Smoothing-curve branch lemmas -/

/-- Exponent-0.3 curve, saturated branch. -/
theorem part001_eq_zero {p : ℝ} (h : 100 ≤ p) :
    Part001.getSmoothOpacity p = 0 := by
  rw [Part001.getSmoothOpacity, if_pos h]

/-- Exponent-0.3 curve, black-cap branch. -/
theorem part001_eq_cap {p : ℝ} (h1 : ¬ 100 ≤ p) (h2 : p ≤ 0) :
    Part001.getSmoothOpacity p = 0.997 := by
  rw [Part001.getSmoothOpacity, if_neg h1, if_pos h2]

/-- Exponent-0.3 curve, interior branch. -/
theorem part001_eq_mid {p : ℝ} (h1 : ¬ 100 ≤ p) (h2 : ¬ p ≤ 0) :
    Part001.getSmoothOpacity p = ((100 - p) / 100) ^ (0.3 : ℝ) := by
  rw [Part001.getSmoothOpacity, if_neg h1, if_neg h2]

/-- Exponent-1.5 curve, saturated branch. -/
theorem part002a_eq_zero {p : ℝ} (h : 100 ≤ p) :
    Part002a.getSmoothOpacity p = 0 := by
  rw [Part002a.getSmoothOpacity, if_pos h]

/-- Exponent-1.5 curve, black-cap branch. -/
theorem part002a_eq_cap {p : ℝ} (h1 : ¬ 100 ≤ p) (h2 : p ≤ 0) :
    Part002a.getSmoothOpacity p = 0.997 := by
  rw [Part002a.getSmoothOpacity, if_neg h1, if_pos h2]

/-- Exponent-1.5 curve, interior branch. -/
theorem part002a_eq_mid {p : ℝ} (h1 : ¬ 100 ≤ p) (h2 : ¬ p ≤ 0) :
    Part002a.getSmoothOpacity p = ((100 - p) / 100) ^ (1.5 : ℝ) := by
  rw [Part002a.getSmoothOpacity, if_neg h1, if_neg h2]

/-- The exponent-0.3 curve never goes below 0. -/
theorem part001_nonneg (p : ℝ) : 0 ≤ Part001.getSmoothOpacity p := by
  by_cases h1 : 100 ≤ p
  · rw [part001_eq_zero h1]
  · by_cases h2 : p ≤ 0
    · rw [part001_eq_cap h1 h2]; norm_num
    · rw [part001_eq_mid h1 h2]
      apply Real.rpow_nonneg
      have hlt : p < 100 := not_le.mp h1
      linarith

/-- The exponent-1.5 curve never goes below 0. -/
theorem part002a_nonneg (p : ℝ) : 0 ≤ Part002a.getSmoothOpacity p := by
  by_cases h1 : 100 ≤ p
  · rw [part002a_eq_zero h1]
  · by_cases h2 : p ≤ 0
    · rw [part002a_eq_cap h1 h2]; norm_num
    · rw [part002a_eq_mid h1 h2]
      apply Real.rpow_nonneg
      have hlt : p < 100 := not_le.mp h1
      linarith

/-- The exponent-0.3 curve stays strictly below the fully-opaque bound 1. -/
theorem part001_lt_one (p : ℝ) : Part001.getSmoothOpacity p < 1 := by
  by_cases h1 : 100 ≤ p
  · rw [part001_eq_zero h1]; norm_num
  · by_cases h2 : p ≤ 0
    · rw [part001_eq_cap h1 h2]; norm_num
    · rw [part001_eq_mid h1 h2]
      apply Real.rpow_lt_one
      · have hlt : p < 100 := not_le.mp h1
        linarith
      · have hpos : 0 < p := not_le.mp h2
        linarith
      · norm_num

/-- The exponent-1.5 curve stays strictly below the fully-opaque bound 1. -/
theorem part002a_lt_one (p : ℝ) : Part002a.getSmoothOpacity p < 1 := by
  by_cases h1 : 100 ≤ p
  · rw [part002a_eq_zero h1]; norm_num
  · by_cases h2 : p ≤ 0
    · rw [part002a_eq_cap h1 h2]; norm_num
    · rw [part002a_eq_mid h1 h2]
      apply Real.rpow_lt_one
      · have hlt : p < 100 := not_le.mp h1
        linarith
      · have hpos : 0 < p := not_le.mp h2
        linarith
      · norm_num

/-- The exponent-0.3 curve is non-increasing on positive percents. -/
theorem part001_mono {p q : ℝ} (hp : 0 < p) (hpq : p ≤ q) :
    Part001.getSmoothOpacity q ≤ Part001.getSmoothOpacity p := by
  by_cases hq1 : 100 ≤ q
  · rw [part001_eq_zero hq1]
    exact part001_nonneg p
  · have hp1 : ¬ 100 ≤ p := fun h => hq1 (le_trans h hpq)
    have hp2 : ¬ p ≤ 0 := not_le.mpr hp
    have hq2 : ¬ q ≤ 0 := not_le.mpr (lt_of_lt_of_le hp hpq)
    rw [part001_eq_mid hq1 hq2, part001_eq_mid hp1 hp2]
    apply Real.rpow_le_rpow
    · have hlt : q < 100 := not_le.mp hq1
      linarith
    · linarith
    · norm_num

/-- The exponent-1.5 curve is non-increasing on positive percents. -/
theorem part002a_mono {p q : ℝ} (hp : 0 < p) (hpq : p ≤ q) :
    Part002a.getSmoothOpacity q ≤ Part002a.getSmoothOpacity p := by
  by_cases hq1 : 100 ≤ q
  · rw [part002a_eq_zero hq1]
    exact part002a_nonneg p
  · have hp1 : ¬ 100 ≤ p := fun h => hq1 (le_trans h hpq)
    have hp2 : ¬ p ≤ 0 := not_le.mpr hp
    have hq2 : ¬ q ≤ 0 := not_le.mpr (lt_of_lt_of_le hp hpq)
    rw [part002a_eq_mid hq1 hq2, part002a_eq_mid hp1 hp2]
    apply Real.rpow_le_rpow
    · have hlt : q < 100 := not_le.mp hq1
      linarith
    · linarith
    · norm_num

/-- At percent at least 1 the exponent-0.3 curve stays below the cap 0.997. -/
theorem part001_le_cap {q : ℝ} (hq : 1 ≤ q) :
    Part001.getSmoothOpacity q ≤ 0.997 := by
  by_cases hq1 : 100 ≤ q
  · rw [part001_eq_zero hq1]; norm_num
  · have hq2 : ¬ q ≤ 0 := by
      push_neg
      linarith
    rw [part001_eq_mid hq1 hq2]
    have hb0 : (0 : ℝ) ≤ (100 - q) / 100 := by
      have hlt : q < 100 := not_le.mp hq1
      linarith
    have h1 : ((100 - q) / 100 : ℝ) ^ (0.3 : ℝ) ≤ ((99 : ℝ) / 100) ^ (0.3 : ℝ) :=
      Real.rpow_le_rpow hb0 (by linarith) (by norm_num)
    have h2 : ((99 : ℝ) / 100) ^ (0.3 : ℝ) ≤ 0.997 := by
      apply le_of_pow_le_pow_left₀ (n := 10) (by norm_num) (by norm_num)
      rw [rpow_three_tenths_pow_ten (by norm_num)]
      norm_num
    linarith

/-- At percent at least 1 the exponent-1.5 curve stays below the cap 0.997. -/
theorem part002a_le_cap {q : ℝ} (hq : 1 ≤ q) :
    Part002a.getSmoothOpacity q ≤ 0.997 := by
  by_cases hq1 : 100 ≤ q
  · rw [part002a_eq_zero hq1]; norm_num
  · have hq2 : ¬ q ≤ 0 := by
      push_neg
      linarith
    rw [part002a_eq_mid hq1 hq2]
    have hb0 : (0 : ℝ) ≤ (100 - q) / 100 := by
      have hlt : q < 100 := not_le.mp hq1
      linarith
    have h1 : ((100 - q) / 100 : ℝ) ^ (1.5 : ℝ) ≤ ((99 : ℝ) / 100) ^ (1.5 : ℝ) :=
      Real.rpow_le_rpow hb0 (by linarith) (by norm_num)
    have h2 : ((99 : ℝ) / 100) ^ (1.5 : ℝ) ≤ 0.997 := by
      apply le_of_pow_le_pow_left₀ (n := 2) (by norm_num) (by norm_num)
      rw [rpow_three_halves_pow_two (by norm_num)]
      norm_num
    linarith

/-! ## Claim C2 -/

/-- Claim C2 counterexample: the smoothing curve is not monotonically
non-increasing on all of [0,100]: just above percent 0 the interior branch
exceeds the 0.997 cap returned at percent 0, in both curve revisions. -/
theorem c2_counterexample :
    Part001.getSmoothOpacity 0 < Part001.getSmoothOpacity (1/2) ∧
    Part002a.getSmoothOpacity 0 < Part002a.getSmoothOpacity (1/10) := by
  constructor
  · rw [part001_eq_cap (by norm_num) le_rfl,
        part001_eq_mid (by norm_num) (by norm_num)]
    have h : ((0.997 : ℝ)) ^ (10 : ℕ)
        < (((100 - 1/2) / 100 : ℝ) ^ (0.3 : ℝ)) ^ (10 : ℕ) := by
      rw [rpow_three_tenths_pow_ten (by norm_num)]
      norm_num
    exact lt_of_pow_lt_pow_left₀ 10 (Real.rpow_nonneg (by norm_num) _) h
  · rw [part002a_eq_cap (by norm_num) le_rfl,
        part002a_eq_mid (by norm_num) (by norm_num)]
    have h : ((0.997 : ℝ)) ^ (2 : ℕ)
        < (((100 - 1/10) / 100 : ℝ) ^ (1.5 : ℝ)) ^ (2 : ℕ) := by
      rw [rpow_three_halves_pow_two (by norm_num)]
      norm_num
    exact lt_of_pow_lt_pow_left₀ 2 (Real.rpow_nonneg (by norm_num) _) h

/-- Claim C2 (amended): both smoothing-curve revisions satisfy
`getSmoothOpacity 100 = 0` and `getSmoothOpacity 0 = 0.997 < 1`, and are
monotonically non-increasing on positive percents and from percent 0 to any
percent at least 1 (hence on all integer percents in [0,100]); monotonicity
fails only between 0 and percents strictly between 0 and 1. -/
theorem c2_amended :
    (Part001.getSmoothOpacity 100 = 0 ∧ Part001.getSmoothOpacity 0 = 0.997 ∧
      (0.997 : ℝ) < 1) ∧
    (∀ p q : ℝ, 0 < p → p ≤ q →
      Part001.getSmoothOpacity q ≤ Part001.getSmoothOpacity p) ∧
    (∀ q : ℝ, 1 ≤ q →
      Part001.getSmoothOpacity q ≤ Part001.getSmoothOpacity 0) ∧
    (Part002a.getSmoothOpacity 100 = 0 ∧ Part002a.getSmoothOpacity 0 = 0.997) ∧
    (∀ p q : ℝ, 0 < p → p ≤ q →
      Part002a.getSmoothOpacity q ≤ Part002a.getSmoothOpacity p) ∧
    (∀ q : ℝ, 1 ≤ q →
      Part002a.getSmoothOpacity q ≤ Part002a.getSmoothOpacity 0) := by
  refine ⟨⟨part001_eq_zero le_rfl, part001_eq_cap (by norm_num) le_rfl,
      by norm_num⟩,
    fun p q hp hpq => part001_mono hp hpq, ?_,
    ⟨part002a_eq_zero le_rfl, part002a_eq_cap (by norm_num) le_rfl⟩,
    fun p q hp hpq => part002a_mono hp hpq, ?_⟩
  · intro q hq
    rw [part001_eq_cap (by norm_num) le_rfl]
    exact part001_le_cap hq
  · intro q hq
    rw [part002a_eq_cap (by norm_num) le_rfl]
    exact part002a_le_cap hq

/-- Witness for `c2_amended` at concrete percents. -/
theorem c2_amended_witness :
    Part001.getSmoothOpacity 40 ≤ Part001.getSmoothOpacity 30 ∧
    Part002a.getSmoothOpacity 1 ≤ Part002a.getSmoothOpacity 0 :=
  ⟨c2_amended.2.1 30 40 (by norm_num) (by norm_num),
   c2_amended.2.2.2.2.2 1 (by norm_num)⟩

/-! ## Claim C10 -/

/-- Claim C10: both smoothing-curve revisions are total on all real percents
with result in [0,1): the result is 0 exactly at the saturated branch
(percent at least 100), 0.997 for percent at most 0, and is always
nonnegative and strictly below the fully-opaque bound 1, so the applied
overlay opacity can never reach 1. -/
theorem c10_range :
    (∀ p : ℝ, 0 ≤ Part001.getSmoothOpacity p ∧ Part001.getSmoothOpacity p < 1) ∧
    (∀ p : ℝ, 100 ≤ p → Part001.getSmoothOpacity p = 0) ∧
    (∀ p : ℝ, p ≤ 0 → Part001.getSmoothOpacity p = 0.997) ∧
    (∀ p : ℝ, 0 ≤ Part002a.getSmoothOpacity p ∧ Part002a.getSmoothOpacity p < 1) ∧
    (∀ p : ℝ, 100 ≤ p → Part002a.getSmoothOpacity p = 0) ∧
    (∀ p : ℝ, p ≤ 0 → Part002a.getSmoothOpacity p = 0.997) := by
  refine ⟨fun p => ⟨part001_nonneg p, part001_lt_one p⟩,
    fun p h => part001_eq_zero h, ?_,
    fun p => ⟨part002a_nonneg p, part002a_lt_one p⟩,
    fun p h => part002a_eq_zero h, ?_⟩
  · intro p h
    exact part001_eq_cap (by linarith) h
  · intro p h
    exact part002a_eq_cap (by linarith) h

/-- Witness for `c10_range` at concrete percents. -/
theorem c10_range_witness :
    Part001.getSmoothOpacity 150 = 0 ∧ Part002a.getSmoothOpacity (-5) = 0.997 :=
  ⟨c10_range.2.1 150 (by norm_num), c10_range.2.2.2.2.2 (-5) (by norm_num)⟩

/-! ## Debounce-channel lemmas -/

/-- A prefix of a gap-constrained call list is gap-constrained. -/
theorem gapOk_prefix : ∀ (l1 l2 : List (ℚ × ℚ)),
    Index.gapOk (l1 ++ l2) = true → Index.gapOk l1 = true := by
  intro l1
  induction l1 with
  | nil =>
      intro l2 _
      rfl
  | cons c l1 ih =>
      obtain ⟨t1, p1⟩ := c
      cases l1 with
      | nil =>
          intro l2 _
          rfl
      | cons c2 l1x =>
          obtain ⟨t2, p2⟩ := c2
          intro l2 h
          simp only [List.cons_append, Index.gapOk, Bool.and_eq_true,
            decide_eq_true_eq] at h ⊢
          exact ⟨h.1, ih l2 h.2⟩

/-- Running the debounced channel from a state holding exactly the timer of
the most recent call: provided consecutive calls stay under the 300 ms
delay, every further call cancels that single pending timer and replaces
it, nothing is ever pushed to the backend during the burst, and the channel
ends holding exactly the timer of the last call. -/
theorem runDeb_inv (rest : List (ℚ × ℚ)) :
    ∀ (t0 p0 : ℚ) (h0 nid : ℕ) (sent0 : List ℚ),
      Index.gapOk ((t0, p0) :: rest) = true →
      h0 < nid →
      ∃ h1 nid1 : ℕ, h1 < nid1 ∧
        Index.runDeb ⟨t0, nid, [(h0, t0 + 300, p0)], some h0, some p0, sent0⟩ rest
          = ⟨(Index.lastD (t0, p0) rest).1, nid1,
             [(h1, (Index.lastD (t0, p0) rest).1 + 300,
               (Index.lastD (t0, p0) rest).2)],
             some h1, some (Index.lastD (t0, p0) rest).2, sent0⟩ := by
  induction rest with
  | nil =>
      intro t0 p0 h0 nid sent0 _ hlt
      exact ⟨h0, nid, hlt, rfl⟩
  | cons c rest ih =>
      obtain ⟨t1, p1⟩ := c
      intro t0 p0 h0 nid sent0 hgap hlt
      simp only [Index.gapOk, Bool.and_eq_true, decide_eq_true_eq] at hgap
      obtain ⟨⟨hlt1, hlt2⟩, hgap'⟩ := hgap
      have hstep : Index.debounceSet p1 t1
          (Index.advanceTo ⟨t0, nid, [(h0, t0 + 300, p0)], some h0, some p0, sent0⟩ t1)
          = ⟨t1, nid + 1, [(nid, t1 + 300, p1)], some nid, some p1, sent0⟩ := by
        simp [Index.advanceTo, Index.debounceSet, Index.clearTimeout,
          hlt2, not_le.mpr hlt2]
      have hrun : Index.runDeb
          ⟨t0, nid, [(h0, t0 + 300, p0)], some h0, some p0, sent0⟩
          ((t1, p1) :: rest)
          = Index.runDeb
            (Index.debounceSet p1 t1 (Index.advanceTo
              ⟨t0, nid, [(h0, t0 + 300, p0)], some h0, some p0, sent0⟩ t1)) rest := rfl
      rw [hrun, hstep]
      have hlast : Index.lastD (t0, p0) ((t1, p1) :: rest)
          = Index.lastD (t1, p1) rest := rfl
      rw [hlast]
      exact ih t1 p1 nid (nid + 1) sent0 hgap' (Nat.lt_succ_self nid)

/-- Shape of the channel after a gap-constrained burst of calls starting
from the idle channel. -/
theorem runDeb_shape (t0 p0 : ℚ) (rest : List (ℚ × ℚ))
    (hgap : Index.gapOk ((t0, p0) :: rest) = true) :
    ∃ h1 nid1 : ℕ, h1 < nid1 ∧
      Index.runDeb Index.initSt ((t0, p0) :: rest)
        = ⟨(Index.lastD (t0, p0) rest).1, nid1,
           [(h1, (Index.lastD (t0, p0) rest).1 + 300,
             (Index.lastD (t0, p0) rest).2)],
           some h1, some (Index.lastD (t0, p0) rest).2, []⟩ := by
  have hstep : Index.runDeb Index.initSt ((t0, p0) :: rest)
      = Index.runDeb ⟨t0, 1, [(0, t0 + 300, p0)], some 0, some p0, []⟩ rest := rfl
  rw [hstep]
  exact runDeb_inv rest t0 p0 0 1 [] hgap Nat.zero_lt_one

/-! ## Claim C4 -/

/-- Claim C4: trailing debounce.  For any burst of calls on a debounced
channel whose consecutive calls are less than 300 ms apart (`gapOk`),
starting from the idle channel: (1) at most one backend-push timer is
pending at any time — after every call prefix and any further advance of
the event loop; (2) no backend call is made during the burst; (3) once
300 ms pass after the last call, exactly one backend call has been made,
carrying the payload of the last call, and no timer remains; and (4) the
index.tsx setters `updateLutBrightness` and `updateTemperature` are exactly
this channel with payloads `percent / 100` and `value`. -/
theorem c4_trailing_debounce (t0 p0 : ℚ) (rest : List (ℚ × ℚ))
    (hgap : Index.gapOk ((t0, p0) :: rest) = true) :
    (∀ pre post, (t0, p0) :: rest = pre ++ post → ∀ T : ℚ,
      ((Index.advanceTo (Index.runDeb Index.initSt pre) T).timers).length ≤ 1) ∧
    (Index.runDeb Index.initSt ((t0, p0) :: rest)).sent = [] ∧
    (∀ T : ℚ, (Index.lastD (t0, p0) rest).1 + 300 ≤ T →
      (Index.advanceTo (Index.runDeb Index.initSt ((t0, p0) :: rest)) T).sent
        = [(Index.lastD (t0, p0) rest).2] ∧
      (Index.advanceTo (Index.runDeb Index.initSt ((t0, p0) :: rest)) T).timers
        = []) ∧
    (∀ (percent t : ℚ) (s : Index.DebChannel),
      Index.updateLutBrightness percent t s
        = Index.debounceSet (percent / 100) t s) ∧
    (∀ (value t : ℚ) (s : Index.DebChannel),
      Index.updateTemperature value t s = Index.debounceSet value t s) := by
  obtain ⟨h1, nid1, hlt, hfin⟩ := runDeb_shape t0 p0 rest hgap
  refine ⟨?_, ?_, ?_, fun _ _ _ => rfl, fun _ _ _ => rfl⟩
  · intro pre post hsplit T
    cases pre with
    | nil =>
        simp [Index.runDeb, Index.initSt, Index.advanceTo]
    | cons c pre' =>
        obtain ⟨tc, pc⟩ := c
        injection hsplit with hc1 hc2
        injection hc1 with ht hp
        subst ht
        subst hp
        subst hc2
        have hgap' : Index.gapOk ((t0, p0) :: pre') = true :=
          gapOk_prefix ((t0, p0) :: pre') post hgap
        obtain ⟨h1x, nid1x, hltx, hfinx⟩ := runDeb_shape t0 p0 pre' hgap'
        rw [hfinx]
        have hfl := List.length_filter_le (fun e => decide (T < e.2.1))
          [(h1x, (Index.lastD (t0, p0) pre').1 + 300,
            (Index.lastD (t0, p0) pre').2)]
        simpa [Index.advanceTo] using hfl
  · rw [hfin]
  · intro T hT
    rw [hfin]
    constructor
    · simp [Index.advanceTo, hT, not_lt.mpr hT]
    · simp [Index.advanceTo, hT, not_lt.mpr hT]

/-- Witness for `c4_trailing_debounce`: two calls 100 ms apart; 300 ms after
the second, exactly its payload has been pushed. -/
theorem c4_trailing_debounce_witness :
    (Index.advanceTo
      (Index.runDeb Index.initSt [(0, 1/2), (100, 4/5)]) 400).sent
      = [(4/5 : ℚ)] :=
  ((c4_trailing_debounce 0 (1/2) [(100, 4/5)]
    (by norm_num [Index.gapOk])).2.2.1 400
    (by norm_num [Index.lastD])).1

/-! ## Throttle-channel lemmas -/

/-- An `updateVibrancy` call that finds the gate open: the backend call is
made immediately and the gate closes until 100 ms after completion. -/
theorem updateVibrancy_accepted {v t d : ℚ} {s : Part000.ThrottleChannel}
    (h : s.reopenAt ≤ t) :
    Part000.updateVibrancy v t d s
      = ⟨t + d + 100, some v, s.sentAt ++ [(t, v)]⟩ := by
  obtain ⟨r, st, sa⟩ := s
  simp [Part000.updateVibrancy, h]

/-- An `updateVibrancy` call that finds the gate closed: only the
localStorage write happens; the call is dropped, not queued. -/
theorem updateVibrancy_dropped {v t d : ℚ} {s : Part000.ThrottleChannel}
    (h : ¬ s.reopenAt ≤ t) :
    Part000.updateVibrancy v t d s = ⟨s.reopenAt, some v, s.sentAt⟩ := by
  obtain ⟨r, st, sa⟩ := s
  simp [Part000.updateVibrancy, h]

/-- `updateVibrancy` always stores the value, whatever the gate state. -/
theorem updateVibrancy_stored (v t d : ℚ) (s : Part000.ThrottleChannel) :
    (Part000.updateVibrancy v t d s).stored = some v := by
  by_cases h : s.reopenAt ≤ t
  · rw [updateVibrancy_accepted h]
  · rw [updateVibrancy_dropped h]

/-- The part_000 LUT setter with the gate closed: only the localStorage
write of `percent / 100` happens. -/
theorem updateLutBrightness_dropped {percent temperature t dur : ℚ}
    {s : Part000.LutChannel} (h : ¬ s.reopenAt ≤ t) :
    Part000.updateLutBrightness percent temperature t dur s
      = ⟨s.reopenAt, some (percent / 100), s.sentAt⟩ := by
  obtain ⟨r, st, sa⟩ := s
  simp [Part000.updateLutBrightness, h]

/-- Appending one element to a gap-chained list, provided the new element
clears the reopen bound and the new bound clears the new element. -/
theorem chainGapTo_snoc {r r2 t : ℚ} :
    ∀ l : List ℚ, chainGapTo r l → r ≤ t → t + 100 ≤ r2 →
      chainGapTo r2 (l ++ [t]) := by
  intro l
  induction l with
  | nil =>
      intro _ hrt hr2
      exact ⟨hr2, trivial⟩
  | cons a l ih =>
      intro h hrt hr2
      refine ⟨?_, ih h.2 hrt hr2⟩
      cases l with
      | nil => exact le_trans h.1 hrt
      | cons b lx => exact h.1

/-- Throttle invariant: starting from a state whose send times are
gap-chained below its reopen time, any run of `updateVibrancy` calls with
nonnegative durations keeps the send times gap-chained below the final
reopen time, and every send time is either inherited or one of the call
times. -/
theorem runVib_inv (calls : List (ℚ × ℚ × ℚ)) :
    ∀ s : Part000.ThrottleChannel,
      (∀ c ∈ calls, 0 ≤ c.2.2) →
      chainGapTo s.reopenAt (s.sentAt.map Prod.fst) →
      chainGapTo (Part000.runVib s calls).reopenAt
        ((Part000.runVib s calls).sentAt.map Prod.fst) ∧
      ∀ e ∈ (Part000.runVib s calls).sentAt,
        e ∈ s.sentAt ∨ ∃ c ∈ calls, e.1 = c.1 := by
  induction calls with
  | nil =>
      intro s _ hchain
      exact ⟨hchain, fun e he => Or.inl he⟩
  | cons c calls ih =>
      obtain ⟨t, v, d⟩ := c
      intro s hdur hchain
      have hd : (0 : ℚ) ≤ d := hdur (t, v, d) (List.mem_cons_self _ _)
      have hdur2 : ∀ c ∈ calls, (0 : ℚ) ≤ c.2.2 :=
        fun c hc => hdur c (List.mem_cons_of_mem _ hc)
      have hstep : Part000.runVib s ((t, v, d) :: calls)
          = Part000.runVib (Part000.updateVibrancy v t d s) calls := rfl
      by_cases hacc : s.reopenAt ≤ t
      · rw [hstep, updateVibrancy_accepted hacc]
        have hchain2 : chainGapTo (t + d + 100)
            (((s.sentAt ++ [(t, v)]).map Prod.fst)) := by
          rw [List.map_append]
          exact chainGapTo_snoc (s.sentAt.map Prod.fst) hchain hacc
            (by linarith)
        obtain ⟨hc2, hm2⟩ := ih ⟨t + d + 100, some v, s.sentAt ++ [(t, v)]⟩
          hdur2 hchain2
        refine ⟨hc2, ?_⟩
        intro e he
        rcases hm2 e he with hin | ⟨c, hc, heq⟩
        · rcases List.mem_append.mp hin with h1 | h2
          · exact Or.inl h1
          · refine Or.inr ⟨(t, v, d), List.mem_cons_self _ _, ?_⟩
            rw [List.mem_singleton.mp h2]
        · exact Or.inr ⟨c, List.mem_cons_of_mem _ hc, heq⟩
      · rw [hstep, updateVibrancy_dropped hacc]
        obtain ⟨hc2, hm2⟩ := ih ⟨s.reopenAt, some v, s.sentAt⟩ hdur2 hchain
        refine ⟨hc2, ?_⟩
        intro e he
        rcases hm2 e he with hin | ⟨c, hc, heq⟩
        · exact Or.inl hin
        · exact Or.inr ⟨c, List.mem_cons_of_mem _ hc, heq⟩

/-- A gap-chained nonempty list spans at least 100 ms per element. -/
theorem chainGapTo_head_last {r : ℚ} :
    ∀ (l : List ℚ) (a : ℚ), chainGapTo r (a :: l) →
      a + 100 * (l.length : ℚ) ≤ lastQ a l := by
  intro l
  induction l with
  | nil =>
      intro a _
      simp [lastQ]
  | cons b l ih =>
      intro a h
      have h1 : a + 100 ≤ b := h.1
      have h2 := ih b h.2
      rw [show lastQ a (b :: l) = lastQ b l from rfl]
      push_cast [List.length_cons]
      push_cast at h2
      linarith

/-- The last element of a list is a member. -/
theorem lastQ_mem : ∀ (l : List ℚ) (a : ℚ), lastQ a l ∈ a :: l := by
  intro l
  induction l with
  | nil =>
      intro a
      simp [lastQ]
  | cons b l ih =>
      intro a
      rw [show lastQ a (b :: l) = lastQ b l from rfl]
      exact List.mem_cons_of_mem a (ih b)

/-- A gap-chained list of times inside a half-open window of width `W`
holds at most `⌈W / 100⌉` elements. -/
theorem chainGap_count {r a W : ℚ} (hW : 0 < W) :
    ∀ l : List ℚ, chainGapTo r l → (∀ x ∈ l, a ≤ x ∧ x < a + W) →
      (l.length : ℤ) ≤ ⌈W / 100⌉ := by
  intro l hchain hmem
  cases l with
  | nil =>
      simp only [List.length_nil, Int.ofNat_eq_coe, Nat.cast_zero]
      exact Int.ceil_nonneg (by positivity)
  | cons x l =>
      have hlast := chainGapTo_head_last l x hchain
      have hx : a ≤ x := (hmem x (List.mem_cons_self _ _)).1
      have hl : lastQ x l < a + W := (hmem _ (lastQ_mem l x)).2
      have h2 : ((l.length : ℤ) : ℚ) < W / 100 := by
        push_cast
        linarith
      have h3 : (l.length : ℤ) < ⌈W / 100⌉ := Int.lt_ceil.mpr h2
      simp only [List.length_cons]
      push_cast
      omega

/-- Running a throttled channel decomposes over list concatenation. -/
theorem runVib_append :
    ∀ (l1 l2 : List (ℚ × ℚ × ℚ)) (s : Part000.ThrottleChannel),
      Part000.runVib s (l1 ++ l2)
        = Part000.runVib (Part000.runVib s l1) l2 := by
  intro l1
  induction l1 with
  | nil =>
      intro l2 s
      rfl
  | cons c l1 ih =>
      obtain ⟨t, v, d⟩ := c
      intro l2 s
      exact ih l2 (Part000.updateVibrancy v t d s)

/-! ## Claim C5 -/

/-- Claim C5 counterexample: two throttled calls 50 ms apart (within the
100 ms cooldown).  The first is sent; the second — the last call — is
dropped while the gate is closed and its value 0.7 is never sent to the
backend by any later step of the run: only localStorage keeps it.  This
refutes "the last call's value is eventually sent". -/
theorem c5_counterexample :
    (Part000.runVib ⟨0, none, []⟩ [(0, 3/10, 0), (50, 7/10, 0)]).sentAt
      = [(0, 3/10)] ∧
    (7/10 : ℚ) ∉ ((Part000.runVib ⟨0, none, []⟩
        [(0, 3/10, 0), (50, 7/10, 0)]).sentAt.map Prod.snd) ∧
    (Part000.runVib ⟨0, none, []⟩ [(0, 3/10, 0), (50, 7/10, 0)]).stored
      = some (7/10) := by
  refine ⟨?_, ?_, ?_⟩ <;> norm_num [Part000.runVib, Part000.updateVibrancy]

/-- Claim C5 (amended): token throttle.  For any run of throttled
`updateVibrancy` calls with nonnegative backend durations whose call times
lie in a window `[a, a + W)`: at most `⌈W / 100⌉` backend calls are made;
a call arriving while the gate is closed is dropped, not queued (only the
localStorage write happens); a call arriving while the gate is open is
pushed immediately; the last call's value is always the persisted value —
but it is sent to the backend only when its call finds the gate open.
The part_000 `updateLutBrightness` gate behaves identically. -/
theorem c5_token_throttle_amended (calls : List (ℚ × ℚ × ℚ)) (r0 a W : ℚ)
    (hW : 0 < W)
    (hdur : ∀ c ∈ calls, (0 : ℚ) ≤ c.2.2)
    (hwin : ∀ c ∈ calls, a ≤ c.1 ∧ c.1 < a + W) :
    ((Part000.runVib ⟨r0, none, []⟩ calls).sentAt.length : ℤ)
      ≤ ⌈W / 100⌉ ∧
    (∀ (v t d : ℚ) (s : Part000.ThrottleChannel), ¬ s.reopenAt ≤ t →
      Part000.updateVibrancy v t d s = ⟨s.reopenAt, some v, s.sentAt⟩) ∧
    (∀ (v t d : ℚ) (s : Part000.ThrottleChannel), s.reopenAt ≤ t →
      (Part000.updateVibrancy v t d s).sentAt = s.sentAt ++ [(t, v)]) ∧
    (∀ (pre : List (ℚ × ℚ × ℚ)) (t v d : ℚ),
      (Part000.runVib ⟨r0, none, []⟩ (pre ++ [(t, v, d)])).stored = some v) ∧
    (∀ (percent temperature t dur : ℚ) (s : Part000.LutChannel),
      ¬ s.reopenAt ≤ t →
      Part000.updateLutBrightness percent temperature t dur s
        = ⟨s.reopenAt, some (percent / 100), s.sentAt⟩) := by
  refine ⟨?_, fun v t d s h => updateVibrancy_dropped h, ?_, ?_,
    fun percent temperature t dur s h => updateLutBrightness_dropped h⟩
  · obtain ⟨hchain, hmem⟩ := runVib_inv calls ⟨r0, none, []⟩ hdur trivial
    rw [show ((Part000.runVib ⟨r0, none, []⟩ calls).sentAt.length : ℤ)
        = (((Part000.runVib ⟨r0, none, []⟩ calls).sentAt.map
            Prod.fst).length : ℤ) by rw [List.length_map]]
    apply chainGap_count hW _ hchain
    intro x hx
    obtain ⟨e, he, hfst⟩ := List.mem_map.mp hx
    rcases hmem e he with h0 | ⟨c, hc, heq⟩
    · exact absurd h0 (List.not_mem_nil e)
    · rw [← hfst, heq]
      exact hwin c hc
  · intro v t d s h
    rw [updateVibrancy_accepted h]
  · intro pre t v d
    rw [runVib_append pre [(t, v, d)] ⟨r0, none, []⟩]
    exact updateVibrancy_stored v t d (Part000.runVib ⟨r0, none, []⟩ pre)

/-- Witness for `c5_token_throttle_amended`: three calls at 0, 50 and
120 ms inside the window `[0, 200)`; the middle one is dropped and the
bound `⌈200 / 100⌉ = 2` is met. -/
theorem c5_token_throttle_amended_witness :
    ((Part000.runVib ⟨0, none, []⟩
      [(0, 1/2, 0), (50, 1/4, 0), (120, 3/4, 0)]).sentAt.length : ℤ)
      ≤ ⌈(200 : ℚ) / 100⌉ :=
  (c5_token_throttle_amended [(0, 1/2, 0), (50, 1/4, 0), (120, 3/4, 0)]
    0 0 200 (by norm_num) (by norm_num [List.forall_mem_cons])
    (by norm_num [List.forall_mem_cons])).1
